import Mathlib

set_option maxHeartbeats 1000000

/-
Verification development for the Detik video pipeline (src/20detik.py).
The Python program is shallowly embedded: pure computations become Lean
functions, and every interaction with the outside world (HTTP responses,
the filesystem, subprocesses) is passed in explicitly as an environment
value, so each code path of the source is a reachable branch here.
-/

namespace Detik

/-! ## String helpers mirroring the Python primitives used by the source -/

/-- Decimal digit test, as Python int() accepts. -/
def is_digit (c : Char) : Bool := '0' ≤ c && c ≤ '9'

/-- Value of a digit string (most significant first). -/
def digits_val (cs : List Char) : Nat :=
  cs.foldl (fun n c => 10 * n + (c.toNat - '0'.toNat)) 0

/-- Python int(s): strip surrounding spaces, optional sign, then all digits;
anything else raises ValueError, modelled as none. -/
def py_int_chars (cs0 : List Char) : Option Int :=
  let cs := ((cs0.dropWhile (fun c => c == ' ')).reverse.dropWhile
    (fun c => c == ' ')).reverse
  match cs with
  | '-' :: rest =>
    if !rest.isEmpty && rest.all is_digit then
      some (-(Int.ofNat (digits_val rest)))
    else none
  | '+' :: rest =>
    if !rest.isEmpty && rest.all is_digit then
      some (Int.ofNat (digits_val rest))
    else none
  | rest =>
    if !rest.isEmpty && rest.all is_digit then
      some (Int.ofNat (digits_val rest))
    else none

/-- Python substring test: the word detik occurs in the text. -/
def contains_detik : List Char → Bool
  | 'd' :: 'e' :: 't' :: 'i' :: 'k' :: _ => true
  | _ :: cs => contains_detik cs
  | [] => false

/-- Python str.replace of the pattern space-detik by the empty string
(left to right, non-overlapping occurrences). -/
def replace_space_detik : List Char → List Char
  | ' ' :: 'd' :: 'e' :: 't' :: 'i' :: 'k' :: rest => replace_space_detik rest
  | c :: cs => c :: replace_space_detik cs
  | [] => []

/-- Python str.split on a colon. -/
def split_colon : List Char → List (List Char)
  | [] => [[]]
  | c :: cs =>
    if c == ':' then [] :: split_colon cs
    else
      match split_colon cs with
      | [] => [[c]]
      | g :: gs => (c :: g) :: gs

/-! ## Duration extraction (DetikScraper.get_video_details, lines 356-364)

The source initialises duration to 0, then: if the marker text contains
detik it parses the text with the suffix stripped as an integer; else if
it contains a colon it parses minutes:seconds; otherwise duration stays 0.
An int() failure raises, which the enclosing try turns into a None result
for the whole details fetch. -/

/-- Result none models the ValueError escaping to the outer except. The
input none models the duration marker element being absent from the page. -/
def parse_duration (dur_text : Option String) : Option Int :=
  match dur_text with
  | none => some 0
  | some t =>
    let cs := t.data
    if contains_detik cs then
      py_int_chars (replace_space_detik cs)
    else if cs.any (fun c => c == ':') then
      match split_colon cs with
      | a :: b :: _ =>
        match py_int_chars a, py_int_chars b with
        | some x, some y => some (x * 60 + y)
        | _, _ => none
      | _ => none
    else some 0

/-! ## Scraped item details (DetikScraper.get_video_details, lines 339-386) -/

/-- The dictionary built at lines 376-383. Note source_url holds the URL
extracted from the page body by a walrus assignment that shadows the
page-link parameter (line 373), not the page link itself. -/
structure Details where
  title : String
  description : String
  duration : Int
  keywords : String
  source_url : String
  scraped_at : String
deriving DecidableEq

/-- Inputs that the fetched page supplies to get_video_details: the
extracted title, description, the duration marker text (none when the
marker div is absent), the hashtag string derived from meta keywords, the
video URL extracted by extract_video_url (none when extraction fails),
and the timestamp. -/
structure ScrapeEnv where
  title : String
  description : String
  dur_text : Option String
  keywords : String
  extracted_url : Option String
  now : String
deriving DecidableEq

/-- DetikScraper.get_video_details: parse the duration (a parse exception
aborts the whole call), then require an extracted video URL; on success
the returned record stores the extracted URL as source_url. The page-link
argument is only the request target and is not stored. -/
def get_video_details (video_url : String) (env : ScrapeEnv) : Option Details :=
  match parse_duration env.dur_text with
  | none => none
  | some d =>
    match env.extracted_url with
    | none => none
    | some u =>
      some { title := env.title, description := env.description, duration := d,
             keywords := env.keywords, source_url := u, scraped_at := env.now }

/-! ## Distribution outcomes (FacebookUploader.upload_to_all_pages, lines 168-225)

One result dictionary is appended per configured page, with a status of
success, failed or error. -/

/-- The status strings used by the source. -/
inductive Status
  | success
  | failed
  | error
deriving DecidableEq

/-- One per-page result dictionary: page_name always present; post_id and
url present on success; err is the error key, present on failed or error. -/
structure Outcome where
  page_name : String
  status : Status
  post_id : Option String
  url : Option String
  err : Option String
deriving DecidableEq

/-! ## Ledger (VideoManager, lines 49-94)

The posted-videos ledger is a JSON list of detail dictionaries, each
augmented with the posted_to outcome list before being appended. -/

/-- One ledger entry: the details dictionary with posted_to added
(main, line 517). -/
structure PostedVideo where
  details : Details
  posted_to : List Outcome
deriving DecidableEq

/-- VideoManager.is_video_posted: membership by the source_url key. -/
def is_video_posted (l : List PostedVideo) (video_url : String) : Bool :=
  l.any (fun v => v.details.source_url == video_url)

/-- VideoManager.add_posted_video: append (and persist) only when the
source_url is not already present. -/
def add_posted_video (l : List PostedVideo) (e : PostedVideo) : List PostedVideo :=
  if is_video_posted l e.details.source_url then l else l ++ [e]

/-- No entry shares its source_url with a later entry. -/
def unique_sources : List PostedVideo → Bool
  | [] => true
  | v :: vs => (!is_video_posted vs v.details.source_url) && unique_sources vs

/-- VideoManager.clean_downloads: delete every file in the download
directory. Defined for completeness; main never calls it. -/
def clean_downloads (files : List String) : List String :=
  files.filter (fun _ => false)

/-- The shape of the persisted ledger file as seen by json.load: either a
list of entries or some other JSON value. -/
inductive JsonVal
  | list (l : List PostedVideo)
  | not_list
deriving DecidableEq

/-- States of the ledger store on disk: absent, a zero-byte file, content
that json.load cannot parse (or an unreadable file), or parsed content. -/
inductive LedgerStore
  | missing
  | empty_file
  | unparseable
  | parsed (v : JsonVal)
deriving DecidableEq

/-- VideoManager.load_posted_videos (lines 54-66): missing file or empty
file give an empty list silently; a read or parse exception is printed
(the Bool component records that a line was logged) and gives an empty
list; otherwise whatever json.load produced is returned unchanged. -/
def load_posted_videos : LedgerStore → JsonVal × Bool
  | LedgerStore.missing => (JsonVal.list [], false)
  | LedgerStore.empty_file => (JsonVal.list [], false)
  | LedgerStore.unparseable => (JsonVal.list [], true)
  | LedgerStore.parsed v => (v, false)

/-! ## Facebook pages configuration (FacebookPageManager.load_pages, lines 25-47) -/

/-- One entry of facebook_pages.json; a field is none when the key is
absent from the dictionary. -/
structure PageCfg where
  page_id : Option String
  access_token : Option String
  page_name : Option String
deriving DecidableEq

/-- States of the configuration source: file absent, content that is not
a JSON list, or a list of entries. -/
inductive PagesSource
  | missing
  | not_list
  | pages (l : List PageCfg)
deriving DecidableEq

/-- All three required fields are present. -/
def cfg_complete (p : PageCfg) : Bool :=
  p.page_id.isSome && p.access_token.isSome && p.page_name.isSome

/-- FacebookPageManager.load_pages: raise on a missing file, a non-list
shape, or any entry lacking one of page_id, access_token, page_name;
otherwise return the entries exactly as parsed. Field values are never
inspected, only key presence. -/
def load_pages : PagesSource → Except String (List PageCfg)
  | PagesSource.missing =>
    Except.error "Facebook pages config file not found"
  | PagesSource.not_list =>
    Except.error "Invalid Facebook pages config format - expected list"
  | PagesSource.pages l =>
    if l.all cfg_complete then Except.ok l
    else Except.error "Missing required field in page config"

/-- Discriminator for a load failure. -/
def load_failed (r : Except String (List PageCfg)) : Bool :=
  match r with
  | Except.error _ => true
  | Except.ok _ => false

/-! ## Reel upload protocol (FacebookUploader.upload_reel, lines 227-282)

Three HTTP phases: start (returns an optional video id), transfer of the
bytes, and finish (publish). Each response is modelled as an Except whose
error is the HTTP error text raised by raise_for_status; the start phase
may also succeed while carrying no video id. -/

/-- The three phases of the reel protocol. -/
inductive Phase
  | start
  | transfer
  | finish
deriving DecidableEq

/-- Responses the network hands to one reel upload attempt. -/
structure ReelEnv where
  start_resp : Except String (Option String)
  transfer_resp : Except String Unit
  finish_resp : Except String Unit

/-- What one reel upload attempt produced: the returned video id (none on
any failure, since every exception is caught and turned into None), the
phases whose request was issued, and the lines printed. -/
structure ReelResult where
  post_id : Option String
  attempted : List Phase
  log : List String
deriving DecidableEq

/-- FacebookUploader.upload_reel. A start-phase HTTP error or a missing
video id abort before the transfer request; a transfer-phase error aborts
before the finish request. Every failure path prints one line and
returns none. -/
def upload_reel (env : ReelEnv) : ReelResult :=
  match env.start_resp with
  | Except.error e =>
    { post_id := none, attempted := [Phase.start],
      log := ["HTTP Error uploading Reel: " ++ e] }
  | Except.ok none =>
    { post_id := none, attempted := [Phase.start],
      log := ["Error uploading Reel: No video ID received from Facebook"] }
  | Except.ok (some vid) =>
    match env.transfer_resp with
    | Except.error e =>
      { post_id := none, attempted := [Phase.start, Phase.transfer],
        log := ["HTTP Error uploading Reel: " ++ e] }
    | Except.ok _ =>
      match env.finish_resp with
      | Except.error e =>
        { post_id := none, attempted := [Phase.start, Phase.transfer, Phase.finish],
          log := ["HTTP Error uploading Reel: " ++ e] }
      | Except.ok _ =>
        { post_id := some vid, attempted := [Phase.start, Phase.transfer, Phase.finish],
          log := ["Reel successfully published"] }

/-- FacebookUploader.upload_regular_video (lines 284-309): a single
request; an HTTP error gives none, otherwise the optional id from the
response body is returned as is. -/
def upload_regular_video (resp : Except String (Option String)) : Option String :=
  match resp with
  | Except.error _ => none
  | Except.ok v => v

/-! ## Fan-out (FacebookUploader.upload_to_all_pages, lines 168-225) -/

/-- A validated page configuration, as used after load_pages succeeded. -/
structure Page where
  page_id : String
  access_token : String
  page_name : String
deriving DecidableEq

/-- The behaviour of the external world for one page of the loop body:
either some call raises an exception caught by the per-page handler, or
the token check answers and the protocol responses are available. -/
inductive PageBehavior
  | throws (msg : String)
  | responds (token_valid : Bool) (reel : ReelEnv)
      (regular : Except String (Option String))

/-- The loop body for one page (lines 173-223): an invalid token yields a
failed outcome without any upload attempt; otherwise the protocol chosen
by is_reel runs, a returned id yields a success outcome with the derived
URL, and a missing id yields a failed outcome with the fixed text Upload
returned no post ID; an exception yields an error outcome carrying the
exception text. -/
def process_page (is_reel : Bool) (p : Page × PageBehavior) : Outcome :=
  match p.2 with
  | PageBehavior.throws msg =>
    { page_name := p.1.page_name, status := Status.error,
      post_id := none, url := none, err := some msg }
  | PageBehavior.responds token_valid reel regular =>
    if !token_valid then
      { page_name := p.1.page_name, status := Status.failed,
        post_id := none, url := none, err := some "Invalid access token" }
    else
      match (if is_reel then (upload_reel reel).post_id
             else upload_regular_video regular) with
      | some id =>
        { page_name := p.1.page_name, status := Status.success,
          post_id := some id, url := some ("https://facebook.com/" ++ id),
          err := none }
      | none =>
        { page_name := p.1.page_name, status := Status.failed,
          post_id := none, url := none,
          err := some "Upload returned no post ID" }

/-- FacebookUploader.upload_to_all_pages: iterate the configured pages in
list order, appending exactly one outcome per page; the per-page handler
continues to the next page after any failure, and the loop has no break.
The inter-page sleep does not affect the results and is not modelled. -/
def upload_to_all_pages (cfg : List (Page × PageBehavior)) (is_reel : Bool) :
    List Outcome :=
  match cfg with
  | [] => []
  | p :: rest => process_page is_reel p :: upload_to_all_pages rest is_reel

/-! ## Pipeline controller (main, lines 444-553)

The body of the per-link loop, as a function of the external responses
for that link. The state carries the in-memory ledger and the set of
transient files in the download directory. -/

/-- Ledger plus download-directory contents. -/
structure PState where
  ledger : List PostedVideo
  files : List String
deriving DecidableEq

/-- The calls the controller issues for one link, in order. The upload
tag records the is_reel flag passed to upload_to_all_pages; record tags
a call to add_posted_video. -/
inductive CallTag
  | get_details
  | download
  | convert
  | upload (is_reel : Bool)
  | record
deriving DecidableEq

/-- Result of the distribution step: the call raised an exception (for
example load_pages failing inside upload_to_all_pages), or returned its
outcome list. -/
inductive UploadRun
  | throws (msg : String)
  | returns (outs : List Outcome)
deriving DecidableEq

/-- External responses for one link of the cycle: the fetched page
content, the download result (the created file path, or none on
failure), the reel conversion result, and the distribution result. -/
structure ItemEnv where
  page : ScrapeEnv
  download : Option String
  convert : Option String
  upload : UploadRun

/-- Lines 504-529: call upload_to_all_pages; if it raises, the item-level
handler continues without deleting the file; otherwise record the entry
when at least one outcome has status success (lines 515-518), then delete
the uploaded file (lines 524-529, where a deletion error is swallowed, so
deletion is an erase). -/
def distribute_and_record (d : Details) (is_reel : Bool) (video_path : String)
    (run : UploadRun) (st : PState) : PState × List CallTag :=
  match run with
  | UploadRun.throws _ => (st, [CallTag.upload is_reel])
  | UploadRun.returns outs =>
    if 0 < (outs.filter (fun o => decide (o.status = Status.success))).length then
      ({ ledger := add_posted_video st.ledger { details := d, posted_to := outs },
         files := st.files.erase video_path },
       [CallTag.upload is_reel, CallTag.record])
    else
      ({ ledger := st.ledger, files := st.files.erase video_path },
       [CallTag.upload is_reel])

/-- Lines 459-541, the loop body for one link: skip when the ledger
already has the link; abandon on a failed details fetch or download; when
duration is at most 60 convert to reel format, deleting the original
(line 489) even when conversion fails; then distribute and record. -/
def process_link (env : ItemEnv) (link : String) (st : PState) :
    PState × List CallTag :=
  if is_video_posted st.ledger link then (st, [])
  else
    match get_video_details link env.page with
    | none => (st, [CallTag.get_details])
    | some d =>
      match env.download with
      | none => (st, [CallTag.get_details, CallTag.download])
      | some orig =>
        let files1 := st.files ++ [orig]
        if d.duration ≤ 60 then
          match env.convert with
          | none =>
            ({ ledger := st.ledger, files := files1.erase orig },
             [CallTag.get_details, CallTag.download, CallTag.convert])
          | some out =>
            let r := distribute_and_record d true out env.upload
              { ledger := st.ledger, files := (files1 ++ [out]).erase orig }
            (r.1, [CallTag.get_details, CallTag.download, CallTag.convert] ++ r.2)
        else
          let r := distribute_and_record d false orig env.upload
            { ledger := st.ledger, files := files1 }
          (r.1, [CallTag.get_details, CallTag.download] ++ r.2)

/-- The call tags the distribution step emits, which depend only on the
flag and the run result, not on the state or paths. -/
def dtrace (b : Bool) (run : UploadRun) : List CallTag :=
  match run with
  | UploadRun.throws _ => [CallTag.upload b]
  | UploadRun.returns outs =>
    if 0 < (outs.filter (fun o => decide (o.status = Status.success))).length then
      [CallTag.upload b, CallTag.record]
    else [CallTag.upload b]

/-! ## The two duration marker forms of the source (lines 357-364)

The plain-seconds form is any marker text the first branch accepts: it
contains the word detik and, with the space-detik suffix occurrences
stripped, parses as a Python int. The minutes:seconds form is any marker
the second branch accepts: it contains a colon and its first two
colon-separated parts parse as Python ints. -/

/-- Marker texts accepted by the seconds branch. -/
def plain_seconds_form (t : String) : Bool :=
  contains_detik t.data && (py_int_chars (replace_space_detik t.data)).isSome

/-- Marker texts accepted by the minutes:seconds branch (note the source
tries this branch only when the word detik is absent). -/
def min_sec_form (t : String) : Bool :=
  t.data.any (fun c => c == ':') &&
    (match split_colon t.data with
     | a :: b :: _ => (py_int_chars a).isSome && (py_int_chars b).isSome
     | _ => false)

/-! ## Concrete inputs used by the claim evaluations -/

/-- A page whose marker reads 120 seconds and whose body yields a media
URL distinct from the article link. -/
def scrape_env1 : ScrapeEnv :=
  { title := "Berita 1", description := "Deskripsi 1",
    dur_text := some "120 detik", keywords := "#news",
    extracted_url := some "https://cdn.detik.com/v1.mp4",
    now := "2026-01-01T00:00:00" }

/-- The article link under which the candidate was discovered. -/
def link1 : String := "https://20.detik.com/detikupdate/video-1"

/-- A successful per-page outcome. -/
def out_success1 : Outcome :=
  { page_name := "Page One", status := Status.success,
    post_id := some "123", url := some "https://facebook.com/123", err := none }

/-- Responses for one full cycle over link1: details fetch succeeds,
download succeeds, the video is regular (120 s), and distribution returns
one success. -/
def env_c1 : ItemEnv :=
  { page := scrape_env1, download := some "vid1.mp4", convert := none,
    upload := UploadRun.returns [out_success1] }

/-- The state after the controller processes link1 from an empty ledger. -/
def c1_run : PState × List CallTag :=
  process_link env_c1 link1 { ledger := [], files := [] }

/-- A failed per-page outcome, as built for an invalid token. -/
def out_failed1 : Outcome :=
  { page_name := "Page One", status := Status.failed,
    post_id := none, url := none, err := some "Invalid access token" }

/-- Responses where distribution returns a single failed outcome. -/
def env_c2 : ItemEnv :=
  { page := scrape_env1, download := some "vid2.mp4", convert := none,
    upload := UploadRun.returns [out_failed1] }

/-- Responses where the distribution call itself raises (for example
load_pages failing inside upload_to_all_pages). -/
def env_c5 : ItemEnv :=
  { page := scrape_env1, download := some "vid5.mp4", convert := none,
    upload := UploadRun.throws "Error loading Facebook pages config" }

/-- Responses where distribution returns normally with one success. -/
def env_c5_ok : ItemEnv :=
  { page := scrape_env1, download := some "vid5b.mp4", convert := none,
    upload := UploadRun.returns [out_success1] }

/-- A page whose marker reads exactly 60 seconds, the boundary value. -/
def scrape_env7 : ScrapeEnv :=
  { title := "Berita 7", description := "D7", dur_text := some "60 detik",
    keywords := "#k7", extracted_url := some "https://cdn.detik.com/v7.mp4",
    now := "2026-01-03T00:00:00" }

/-- Responses for a 60-second item: download and conversion succeed and
distribution returns one success. -/
def env_c7 : ItemEnv :=
  { page := scrape_env7, download := some "vid7.mp4",
    convert := some "reel_vid7.mp4",
    upload := UploadRun.returns [out_success1] }

/-- The details dictionary the 60-second page produces. -/
def details7 : Details :=
  { title := "Berita 7", description := "D7", duration := 60,
    keywords := "#k7", source_url := "https://cdn.detik.com/v7.mp4",
    scraped_at := "2026-01-03T00:00:00" }

/-- A page whose duration marker is the bare word detik: the seconds
branch fires but the int parse fails. -/
def scrape_env10 : ScrapeEnv :=
  { title := "Berita 10", description := "D10", dur_text := some "detik",
    keywords := "", extracted_url := some "https://cdn.detik.com/v10.mp4",
    now := "2026-01-04T00:00:00" }

/-- Responses around the malformed-marker page; download and conversion
would succeed if reached. -/
def env_c10 : ItemEnv :=
  { page := scrape_env10, download := some "vid10.mp4",
    convert := some "reel_vid10.mp4",
    upload := UploadRun.returns [out_success1] }

/-- A page with a marker that is neither form: no detik word, no colon. -/
def scrape_env10b : ScrapeEnv :=
  { title := "Berita 10b", description := "D10b", dur_text := some "LIVE",
    keywords := "", extracted_url := some "https://cdn.detik.com/v10b.mp4",
    now := "2026-01-04T01:00:00" }

/-- Responses around the markerless-form page. -/
def env_c10b : ItemEnv :=
  { page := scrape_env10b, download := some "vid10b.mp4",
    convert := some "reel_vid10b.mp4",
    upload := UploadRun.returns [out_success1] }

/-- Details entry used by the ledger claims. -/
def details_a : Details :=
  { title := "A", description := "", duration := 30, keywords := "",
    source_url := "https://cdn.detik.com/a.mp4", scraped_at := "t" }

/-- A ledger entry. -/
def pv_a : PostedVideo := { details := details_a, posted_to := [] }

/-- A second entry sharing the same source_url as pv_a. -/
def pv_b : PostedVideo := { details := details_a, posted_to := [out_failed1] }

/-- Default used with List.getD when indexing outcome lists. -/
def default_out : Outcome :=
  { page_name := "", status := Status.error, post_id := none, url := none,
    err := none }

/-- Default used with List.getD when indexing page configurations. -/
def default_pb : Page × PageBehavior :=
  ({ page_id := "", access_token := "", page_name := "" },
   PageBehavior.throws "")

/-- A reel environment where every phase succeeds. -/
def reel_env_ok : ReelEnv :=
  { start_resp := Except.ok (some "900"), transfer_resp := Except.ok (),
    finish_resp := Except.ok () }

/-- A reel environment where the start phase yields no session id. -/
def reel_env_nosession : ReelEnv :=
  { start_resp := Except.ok none, transfer_resp := Except.ok (),
    finish_resp := Except.ok () }

/-- A reel environment where the byte transfer is rejected. -/
def reel_env_badbytes : ReelEnv :=
  { start_resp := Except.ok (some "55"),
    transfer_resp := Except.error "400 Bad Request",
    finish_resp := Except.ok () }

/-- Three configured pages. -/
def page_a : Page :=
  { page_id := "111", access_token := "ta", page_name := "Page A" }

def page_b : Page :=
  { page_id := "222", access_token := "tb", page_name := "Page B" }

def page_c : Page :=
  { page_id := "333", access_token := "tc", page_name := "Page C" }

/-- Three destinations where the middle one has an invalid token. -/
def cfg3 : List (Page × PageBehavior) :=
  [(page_a, PageBehavior.responds true reel_env_ok (Except.ok (some "a1"))),
   (page_b, PageBehavior.responds false reel_env_ok (Except.ok (some "b1"))),
   (page_c, PageBehavior.responds true reel_env_ok (Except.ok (some "c1")))]

/-- A configuration entry whose page_id key is present but empty. -/
def cfg_empty_field : PageCfg :=
  { page_id := some "", access_token := some "tok", page_name := some "Name" }

/-- A configuration entry with all three fields present and non-empty. -/
def cfg_good : PageCfg :=
  { page_id := some "1", access_token := some "t", page_name := some "N" }

end Detik

namespace Detik

/-- C1: the code records the media URL extracted from the page body, not
the discovered page locator, so the ledger membership test on the page
locator stays false and a later cycle processes the same link again,
starting with another metadata fetch. This evaluates the embedded code at
the failing input of the claim. -/
theorem C1_code_behavior :
    CallTag.record ∈ c1_run.2 ∧
    c1_run.1.ledger.length = 1 ∧
    is_video_posted c1_run.1.ledger link1 = false ∧
    is_video_posted c1_run.1.ledger "https://cdn.detik.com/v1.mp4" = true ∧
    CallTag.get_details ∈ (process_link env_c1 link1 c1_run.1).2 := by
  decide

/-! ## Helper lemmas about the distribution step -/

/-- When the distribution call returns (rather than raising), the video
file is erased from storage whatever the outcomes were. -/
theorem distribute_files_returns (d : Details) (b : Bool) (path : String)
    (outs : List Outcome) (st : PState) :
    ((distribute_and_record d b path (UploadRun.returns outs) st).1).files =
      st.files.erase path := by
  simp only [distribute_and_record]
  split <;> rfl

/-- The distribution step only ever emits the upload tag (with its own
is_reel flag) and the record tag. -/
theorem distribute_tag_cases (d : Details) (b : Bool) (path : String)
    (run : UploadRun) (st : PState) :
    ∀ c ∈ (distribute_and_record d b path run st).2,
      c = CallTag.upload b ∨ c = CallTag.record := by
  cases run with
  | throws m => simp [distribute_and_record]
  | returns outs =>
    simp only [distribute_and_record]
    split <;> simp

/-- The distribution step always issues the upload call. -/
theorem distribute_upload_mem (d : Details) (b : Bool) (path : String)
    (run : UploadRun) (st : PState) :
    CallTag.upload b ∈ (distribute_and_record d b path run st).2 := by
  cases run with
  | throws m => simp [distribute_and_record]
  | returns outs =>
    simp only [distribute_and_record]
    split <;> simp

/-- With no successful outcome the distribution step leaves the ledger
alone, erases the file, and does not record. -/
theorem distribute_no_success (d : Details) (b : Bool) (path : String)
    (outs : List Outcome) (st : PState)
    (h : ∀ o ∈ outs, o.status ≠ Status.success) :
    distribute_and_record d b path (UploadRun.returns outs) st =
      ({ ledger := st.ledger, files := st.files.erase path },
       [CallTag.upload b]) := by
  have hf : outs.filter (fun o => decide (o.status = Status.success)) = [] := by
    refine List.filter_eq_nil_iff.mpr ?_
    intro o ho
    simp [h o ho]
  simp [distribute_and_record, hf]

/-- C2: when the distribution call returns a list of outcomes none of
which is a success (the empty list included), the controller does not
call add_posted_video for the item and the ledger after the item equals
the ledger before it. -/
theorem C2_no_success_no_record (env : ItemEnv) (link : String) (st : PState)
    (outs : List Outcome)
    (hup : env.upload = UploadRun.returns outs)
    (hns : ∀ o ∈ outs, o.status ≠ Status.success) :
    (process_link env link st).1.ledger = st.ledger ∧
    CallTag.record ∉ (process_link env link st).2 := by
  unfold process_link
  split
  · exact ⟨rfl, by simp⟩
  · split
    · exact ⟨rfl, by simp⟩
    · split
      · exact ⟨rfl, by simp⟩
      · split
        · split
          · exact ⟨rfl, by simp⟩
          · simp only [hup, distribute_no_success _ _ _ _ _ hns]
            exact ⟨trivial, by simp⟩
        · simp only [hup, distribute_no_success _ _ _ _ _ hns]
          exact ⟨trivial, by simp⟩

/-- The trace component of the distribution step equals dtrace. -/
theorem distribute_snd (d : Details) (b : Bool) (path : String)
    (run : UploadRun) (st : PState) :
    (distribute_and_record d b path run st).2 = dtrace b run := by
  cases run with
  | throws m => rfl
  | returns outs =>
    simp only [distribute_and_record, dtrace]
    split <;> rfl

/-- Members of a dtrace are the upload tag with that flag, or record. -/
theorem dtrace_mem (b : Bool) (run : UploadRun) :
    ∀ c ∈ dtrace b run, c = CallTag.upload b ∨ c = CallTag.record := by
  cases run with
  | throws m => simp [dtrace]
  | returns outs =>
    simp only [dtrace]
    split <;> simp

/-- The upload tag always appears in a dtrace. -/
theorem dtrace_upload_mem (b : Bool) (run : UploadRun) :
    CallTag.upload b ∈ dtrace b run := by
  cases run with
  | throws m => simp [dtrace]
  | returns outs =>
    simp only [dtrace]
    split <;> simp

/-- The full call trace of one processed link that was not already
ledgered and whose details fetch and download succeeded. -/
theorem process_link_calls (env : ItemEnv) (link : String) (st : PState)
    (d : Details) (p : String)
    (hnp : is_video_posted st.ledger link = false)
    (hd : get_video_details link env.page = some d)
    (hdl : env.download = some p) :
    (process_link env link st).2 =
      if d.duration ≤ 60 then
        match env.convert with
        | none => [CallTag.get_details, CallTag.download, CallTag.convert]
        | some _ => [CallTag.get_details, CallTag.download, CallTag.convert] ++
            dtrace true env.upload
      else [CallTag.get_details, CallTag.download] ++ dtrace false env.upload := by
  unfold process_link
  simp only [hnp, hd, hdl, Bool.false_eq_true, if_false]
  split
  · cases hc : env.convert with
    | none => simp [hc]
    | some out => simp [hc, distribute_snd]
  · simp [distribute_snd]

/-- C7: for an acquired item (ledger miss, details fetched, download
succeeded), the transform step runs exactly when duration is at most 60,
with 60 itself on the short-form side; a longer item is distributed with
the regular protocol flag and never with the reel flag; a short item
whose conversion succeeds is distributed with the reel flag and never
with the regular flag. -/
theorem C7_short_form_threshold (env : ItemEnv) (link : String) (st : PState)
    (d : Details) (p : String)
    (hnp : is_video_posted st.ledger link = false)
    (hd : get_video_details link env.page = some d)
    (hdl : env.download = some p) :
    (CallTag.convert ∈ (process_link env link st).2 ↔ d.duration ≤ 60) ∧
    (d.duration ≤ 60 → CallTag.upload false ∉ (process_link env link st).2) ∧
    (60 < d.duration → CallTag.upload false ∈ (process_link env link st).2 ∧
      CallTag.upload true ∉ (process_link env link st).2) ∧
    (d.duration ≤ 60 → ∀ out, env.convert = some out →
      CallTag.upload true ∈ (process_link env link st).2) := by
  rw [process_link_calls env link st d p hnp hd hdl]
  by_cases hdur : d.duration ≤ 60
  · simp only [if_pos hdur]
    cases hc : env.convert with
    | none =>
      refine ⟨by simp [hdur], by intro _; simp, ?_, ?_⟩
      · intro hgt; exact absurd hgt (not_lt.mpr hdur)
      · intro _ out hout
        exact Option.noConfusion hout
    | some out =>
      refine ⟨by simp [hdur], ?_, ?_, ?_⟩
      · intro _ hmem
        rcases List.mem_append.mp hmem with h | h
        · simp at h
        · rcases dtrace_mem true env.upload _ h with h1 | h1 <;> simp at h1
      · intro hgt; exact absurd hgt (not_lt.mpr hdur)
      · intro _ out2 hout
        exact List.mem_append_right _ (dtrace_upload_mem true env.upload)
  · simp only [if_neg hdur]
    refine ⟨?_, ?_, ?_, ?_⟩
    · constructor
      · intro hmem
        exfalso
        rcases List.mem_append.mp hmem with h | h
        · simp at h
        · rcases dtrace_mem false env.upload _ h with h1 | h1 <;> simp at h1
      · intro h; exact absurd h hdur
    · intro h; exact absurd h hdur
    · intro _
      refine ⟨List.mem_append_right _ (dtrace_upload_mem false env.upload), ?_⟩
      intro hmem
      rcases List.mem_append.mp hmem with h | h
      · simp at h
      · rcases dtrace_mem false env.upload _ h with h1 | h1 <;> simp at h1
    · intro h; exact absurd h hdur

/-- Witness for C2: a cycle whose single outcome is a failure leaves the
empty ledger empty and issues no record call. -/
theorem C2_witness :
    (process_link env_c2 link1 { ledger := [], files := [] }).1.ledger =
      ([] : List PostedVideo) ∧
    CallTag.record ∉ (process_link env_c2 link1 { ledger := [], files := [] }).2 :=
  C2_no_success_no_record env_c2 link1 { ledger := [], files := [] }
    [out_failed1] rfl (by decide)

/-- Ledger membership distributes over append. -/
theorem is_video_posted_append (l1 l2 : List PostedVideo) (u : String) :
    is_video_posted (l1 ++ l2) u = (is_video_posted l1 u || is_video_posted l2 u) := by
  simp [is_video_posted]

/-- Ledger membership in a singleton. -/
theorem is_video_posted_single (x : PostedVideo) (u : String) :
    is_video_posted [x] u = (x.details.source_url == u) := by
  simp [is_video_posted]

/-- Appending an entry with a fresh source_url preserves uniqueness. -/
theorem unique_sources_append (l : List PostedVideo) (e : PostedVideo)
    (h1 : unique_sources l = true)
    (h2 : is_video_posted l e.details.source_url = false) :
    unique_sources (l ++ [e]) = true := by
  induction l with
  | nil => simp [unique_sources, is_video_posted]
  | cons x xs ih =>
    simp only [unique_sources, Bool.and_eq_true, Bool.not_eq_true'] at h1
    simp only [is_video_posted, List.any_cons, Bool.or_eq_false_iff] at h2
    have hne : x.details.source_url ≠ e.details.source_url :=
      beq_eq_false_iff_ne.mp h2.1
    have hih := ih h1.2 h2.2
    simp only [List.cons_append, unique_sources, Bool.and_eq_true,
      Bool.not_eq_true']
    refine ⟨?_, hih⟩
    show is_video_posted (xs ++ [e]) x.details.source_url = false
    rw [is_video_posted_append, h1.1, is_video_posted_single]
    simp only [Bool.false_or]
    exact beq_eq_false_iff_ne.mpr (fun hee => hne hee.symm)

/-- An any over a list being false means the corresponding filter is
empty. -/
theorem filter_src_nil (l : List PostedVideo) (u : String)
    (h : is_video_posted l u = false) :
    l.filter (fun v => v.details.source_url == u) = [] := by
  refine List.filter_eq_nil_iff.mpr ?_
  intro v hv
  simp only [is_video_posted, List.any_eq_false] at h
  simpa using h v hv

/-- C3: recording an entry whose source_url is already present leaves the
stored list unchanged; recording preserves uniqueness of source_url; and
recording two entries sharing a source_url over a list not containing it
stores only the first, so exactly one entry with that key exists. -/
theorem C3_idempotent_record :
    (∀ (l : List PostedVideo) (e : PostedVideo),
        is_video_posted l e.details.source_url = true →
        add_posted_video l e = l) ∧
    (∀ (l : List PostedVideo) (e : PostedVideo),
        unique_sources l = true →
        unique_sources (add_posted_video l e) = true) ∧
    (∀ (l : List PostedVideo) (e1 e2 : PostedVideo),
        is_video_posted l e1.details.source_url = false →
        e2.details.source_url = e1.details.source_url →
        add_posted_video (add_posted_video l e1) e2 = l ++ [e1] ∧
        ((add_posted_video (add_posted_video l e1) e2).filter
          (fun v => v.details.source_url == e1.details.source_url)).length = 1) := by
  refine ⟨?_, ?_, ?_⟩
  · intro l e h
    simp [add_posted_video, h]
  · intro l e h
    by_cases hp : is_video_posted l e.details.source_url = true
    · simp [add_posted_video, hp, h]
    · rw [Bool.not_eq_true] at hp
      rw [add_posted_video, hp]
      simp only [Bool.false_eq_true, if_false]
      exact unique_sources_append l e h hp
  · intro l e1 e2 h he
    have hfirst : add_posted_video l e1 = l ++ [e1] := by
      simp [add_posted_video, h]
    have hsecond : is_video_posted (l ++ [e1]) e2.details.source_url = true := by
      simp [is_video_posted, List.any_append, he]
    have hres : add_posted_video (add_posted_video l e1) e2 = l ++ [e1] := by
      rw [hfirst, add_posted_video, hsecond]
      simp
    refine ⟨hres, ?_⟩
    rw [hres, List.filter_append, filter_src_nil l _ h]
    simp

/-- Witness for C3: recording two concrete entries with the same key over
the empty ledger stores exactly the first. -/
theorem C3_witness :
    add_posted_video (add_posted_video [] pv_a) pv_b = [pv_a] ∧
    ((add_posted_video (add_posted_video [] pv_a) pv_b).filter
      (fun v => v.details.source_url == pv_a.details.source_url)).length = 1 := by
  have h := C3_idempotent_record.2.2 [] pv_a pv_b (by decide) (by decide)
  exact ⟨by simpa using h.1, h.2⟩

/-- C4: the fan-out produces exactly one outcome per configured page, in
list order, and the outcome at each position is a function of that page
alone, so no failure at any earlier page prevents or alters the attempt
at a later one. -/
theorem C4_fan_out (cfg : List (Page × PageBehavior)) (b : Bool) :
    (upload_to_all_pages cfg b).length = cfg.length ∧
    ∀ i : Nat, i < cfg.length →
      (upload_to_all_pages cfg b).getD i default_out =
        process_page b (cfg.getD i default_pb) := by
  induction cfg with
  | nil =>
    refine ⟨rfl, ?_⟩
    intro i hi
    simp at hi
  | cons p rest ih =>
    refine ⟨?_, ?_⟩
    · simp only [upload_to_all_pages, List.length_cons, ih.1]
    · intro i hi
      cases i with
      | zero => rfl
      | succ n =>
        have hn : n < rest.length := by
          simpa using hi
        simpa [upload_to_all_pages] using ih.2 n hn

/-- Witness for C4: three destinations where the middle token is invalid
give three outcomes, success then failed then success, and the second
outcome is exactly the result computed from the middle page alone. -/
theorem C4_witness :
    (upload_to_all_pages cfg3 false).length = 3 ∧
    (upload_to_all_pages cfg3 false).getD 1 default_out =
      process_page false (cfg3.getD 1 default_pb) ∧
    (upload_to_all_pages cfg3 false).map (fun o => o.status) =
      [Status.success, Status.failed, Status.success] := by
  refine ⟨(C4_fan_out cfg3 false).1, (C4_fan_out cfg3 false).2 1 (by decide), ?_⟩
  decide

/-- C5 counterexample: the distribution step raises while the acquired
asset is on disk; the item-level handler moves on without the deletion at
lines 524-529 and the file remains in the download directory. The
controller never calls clean_downloads. -/
theorem C5_counterexample :
    CallTag.upload false ∈ (process_link env_c5 link1 { ledger := [], files := [] }).2 ∧
    (process_link env_c5 link1 { ledger := [], files := [] }).1.files = ["vid5.mp4"] := by
  decide

/-- C5 amended: when the distribution call returns (with any outcome
list), or the item abandons before distribution, no transient file for
the item remains in storage. -/
theorem C5_cleanup_when_distribute_returns (env : ItemEnv) (link : String)
    (ledger : List PostedVideo) (outs : List Outcome)
    (hup : env.upload = UploadRun.returns outs) :
    (process_link env link { ledger := ledger, files := [] }).1.files = [] := by
  unfold process_link
  split
  · rfl
  · split
    · rfl
    · split
      · rfl
      · split
        · split
          · simp
          · simp only [hup]
            simp [distribute_files_returns, List.erase_cons]
        · simp only [hup]
          simp [distribute_files_returns, List.erase_cons]

/-- Witness for C5 amended: a concrete successful distribution leaves the
storage directory empty. -/
theorem C5_witness :
    (process_link env_c5_ok link1 { ledger := [], files := [] }).1.files = [] :=
  C5_cleanup_when_distribute_returns env_c5_ok link1 [] [out_success1] rfl

/-- C6 counterexample: a start phase that yields no session and a
transfer phase whose bytes are rejected fail at different phases, yet the
two resulting outcome dictionaries are identical, with the same generic
failure reason, so the outcome does not identify the failing phase. -/
theorem C6_counterexample :
    (upload_reel reel_env_nosession).attempted ≠
      (upload_reel reel_env_badbytes).attempted ∧
    process_page true (page_a, PageBehavior.responds true reel_env_nosession
        (Except.ok none)) =
      process_page true (page_a, PageBehavior.responds true reel_env_badbytes
        (Except.ok none)) := by
  decide

/-- C6 amended: a failure at the start phase (HTTP error or missing
session id) prevents the transfer and finish requests; a failure at the
transfer phase prevents the finish request; and every reel failure
surfaces in the outcome with the uniform reason Upload returned no post
ID, the phase-specific message going only to the printed log. -/
theorem C6_phase_abort_generic_reason (env : ReelEnv) (p : Page)
    (reg : Except String (Option String)) :
    ((∀ vid, env.start_resp ≠ Except.ok (some vid)) →
        (upload_reel env).post_id = none ∧
        (upload_reel env).attempted = [Phase.start]) ∧
    (∀ vid e, env.start_resp = Except.ok (some vid) →
        env.transfer_resp = Except.error e →
        (upload_reel env).post_id = none ∧
        (upload_reel env).attempted = [Phase.start, Phase.transfer]) ∧
    ((upload_reel env).post_id = none →
        process_page true (p, PageBehavior.responds true env reg) =
          { page_name := p.page_name, status := Status.failed,
            post_id := none, url := none,
            err := some "Upload returned no post ID" }) := by
  refine ⟨?_, ?_, ?_⟩
  · intro hs
    cases hstart : env.start_resp with
    | error e => simp [upload_reel, hstart]
    | ok v =>
      cases v with
      | none => simp [upload_reel, hstart]
      | some vid => exact absurd hstart (hs vid)
  · intro vid e hstart htr
    simp [upload_reel, hstart, htr]
  · intro hnone
    simp [process_page, hnone]

/-- Witness for C6 amended: the rejected-bytes environment aborts after
the transfer phase and yields the generic failed outcome. -/
theorem C6_witness :
    (upload_reel reel_env_badbytes).post_id = none ∧
    (upload_reel reel_env_badbytes).attempted = [Phase.start, Phase.transfer] ∧
    process_page true (page_a, PageBehavior.responds true reel_env_badbytes
        (Except.ok none)) =
      { page_name := "Page A", status := Status.failed, post_id := none,
        url := none, err := some "Upload returned no post ID" } := by
  have h := C6_phase_abort_generic_reason reel_env_badbytes page_a (Except.ok none)
  have h2 := h.2.1 "55" "400 Bad Request" rfl rfl
  exact ⟨h2.1, h2.2, h.2.2 h2.1⟩

/-- Witness for C7: a 60-second item, the boundary value, goes through
the transform step and is distributed with the reel flag. -/
theorem C7_witness :
    CallTag.convert ∈
      (process_link env_c7 "https://20.detik.com/detikupdate/video-7"
        { ledger := [], files := [] }).2 ∧
    CallTag.upload true ∈
      (process_link env_c7 "https://20.detik.com/detikupdate/video-7"
        { ledger := [], files := [] }).2 := by
  have h := C7_short_form_threshold env_c7
    "https://20.detik.com/detikupdate/video-7" { ledger := [], files := [] }
    details7 "vid7.mp4" rfl (by decide) rfl
  exact ⟨h.1.mpr (by decide), h.2.2.2 (by decide) "reel_vid7.mp4" rfl⟩

/-- C8 counterexample: an entry whose page_id key is present but holds
the empty string passes validation, so a successfully returned list may
contain an empty required field, against the non-emptiness half of the
claim. -/
theorem C8_counterexample :
    load_pages (PagesSource.pages [cfg_empty_field]) =
      Except.ok [cfg_empty_field] ∧
    cfg_empty_field.page_id = some "" := by
  exact ⟨rfl, rfl⟩

/-- C8 amended: loading fails exactly when the source is missing, is not
a list, or some entry lacks one of the three required fields; every entry
of a successfully returned list has all three fields present (but they
are not checked for non-emptiness). -/
theorem C8_load_validation (s : PagesSource) :
    (load_failed (load_pages s) = true ↔
      s = PagesSource.missing ∨ s = PagesSource.not_list ∨
      ∃ l p, s = PagesSource.pages l ∧ p ∈ l ∧ cfg_complete p = false) ∧
    (∀ l, load_pages s = Except.ok l →
      s = PagesSource.pages l ∧ ∀ p ∈ l, cfg_complete p = true) := by
  cases s with
  | missing =>
    refine ⟨by simp [load_pages, load_failed], ?_⟩
    intro l hl
    exact Except.noConfusion hl
  | not_list =>
    refine ⟨by simp [load_pages, load_failed], ?_⟩
    intro l hl
    exact Except.noConfusion hl
  | pages l0 =>
    by_cases hall : l0.all cfg_complete = true
    · refine ⟨?_, ?_⟩
      · simp only [load_pages, hall, if_true, load_failed]
        constructor
        · intro hf
          exact Bool.noConfusion hf
        · rintro (h | h | ⟨l2, p2, hl2, hp2, hc2⟩)
          · exact PagesSource.noConfusion h
          · exact PagesSource.noConfusion h
          · cases hl2
            have := List.all_eq_true.mp hall p2 hp2
            rw [hc2] at this
            exact Bool.noConfusion this
      · intro l hl
        simp only [load_pages, hall, if_true] at hl
        cases hl
        exact ⟨rfl, fun p hp => List.all_eq_true.mp hall p hp⟩
    · rw [Bool.not_eq_true] at hall
      refine ⟨?_, ?_⟩
      · simp only [load_pages, hall, Bool.false_eq_true, if_false, load_failed]
        constructor
        · intro _
          rcases List.all_eq_false.mp hall with ⟨p2, hp2, hc2⟩
          exact Or.inr (Or.inr ⟨l0, p2, rfl, hp2, by simpa using hc2⟩)
        · intro _
          trivial
      · intro l hl
        simp only [load_pages, hall, Bool.false_eq_true, if_false] at hl
        exact Except.noConfusion hl

/-- Witness for C8 amended: a complete entry loads, its fields are all
present, and a missing configuration file fails. -/
theorem C8_witness :
    (∀ p ∈ [cfg_good], cfg_complete p = true) ∧
    load_failed (load_pages PagesSource.missing) = true := by
  have h1 := (C8_load_validation (PagesSource.pages [cfg_good])).2 [cfg_good] rfl
  have h2 := (C8_load_validation PagesSource.missing).1.mpr (Or.inl rfl)
  exact ⟨h1.2, h2⟩

/-- C9 counterexample: a store holding parseable JSON of a non-list
shape is a corrupt ledger store (the persisted layout is a JSON array),
yet loading returns that value unchanged rather than an empty in-memory
ledger, and nothing is logged. -/
theorem C9_counterexample :
    load_posted_videos (LedgerStore.parsed JsonVal.not_list) =
      (JsonVal.not_list, false) ∧
    JsonVal.not_list ≠ JsonVal.list [] := by
  decide

/-- C9 amended: a missing or empty store silently yields the empty
ledger; an unreadable or unparseable store yields the empty ledger with a
logged line; membership in the empty ledger is false for every locator;
but parseable content of any shape is returned as-is. -/
theorem C9_load_never_raises :
    load_posted_videos LedgerStore.missing = (JsonVal.list [], false) ∧
    load_posted_videos LedgerStore.empty_file = (JsonVal.list [], false) ∧
    load_posted_videos LedgerStore.unparseable = (JsonVal.list [], true) ∧
    (∀ url : String, is_video_posted [] url = false) ∧
    (∀ v : JsonVal, load_posted_videos (LedgerStore.parsed v) = (v, false)) := by
  exact ⟨rfl, rfl, rfl, fun url => rfl, fun v => rfl⟩

/-- C10 counterexample: the marker text detik matches neither the
plain-seconds form nor the minutes:seconds form, yet metadata extraction
does not set the duration to 0: the int conversion raises, the whole
details fetch returns none, and the item is abandoned after the metadata
call instead of being classified short-form. -/
theorem C10_counterexample :
    plain_seconds_form "detik" = false ∧
    min_sec_form "detik" = false ∧
    get_video_details link1 scrape_env10 = none ∧
    (process_link env_c10 link1 { ledger := [], files := [] }).2 =
      [CallTag.get_details] := by
  decide

/-- C10 amended: when the duration marker is absent, or contains neither
the word detik nor a colon, the extracted duration is 0 and the item is
classified short-form: the transform step runs and the regular-protocol
flag is never used. -/
theorem C10_missing_marker_short_form (env : ItemEnv) (link : String)
    (st : PState) (p : String) (u : String)
    (hnp : is_video_posted st.ledger link = false)
    (hm : env.page.dur_text = none ∨
      ∃ t, env.page.dur_text = some t ∧ contains_detik t.data = false ∧
        t.data.any (fun c => c == ':') = false)
    (hu : env.page.extracted_url = some u)
    (hdl : env.download = some p) :
    ∃ d, get_video_details link env.page = some d ∧ d.duration = 0 ∧
      CallTag.convert ∈ (process_link env link st).2 ∧
      CallTag.upload false ∉ (process_link env link st).2 := by
  have hdur : parse_duration env.page.dur_text = some 0 := by
    rcases hm with h | ⟨t, ht, hdk, hcol⟩
    · simp [parse_duration, h]
    · simp [parse_duration, ht, hdk, hcol]
  have hd : get_video_details link env.page =
      some { title := env.page.title, description := env.page.description,
             duration := 0, keywords := env.page.keywords, source_url := u,
             scraped_at := env.page.now } := by
    simp [get_video_details, hdur, hu]
  refine ⟨_, hd, rfl, ?_, ?_⟩
  · rw [process_link_calls env link st _ p hnp hd hdl]
    simp only [show ((0 : Int) ≤ 60) = True by simp, if_true]
    cases hc : env.convert with
    | none => simp
    | some out => simp
  · rw [process_link_calls env link st _ p hnp hd hdl]
    simp only [show ((0 : Int) ≤ 60) = True by simp, if_true]
    cases hc : env.convert with
    | none =>
      intro hmem
      simp at hmem
    | some out =>
      intro hmem
      rcases List.mem_append.mp hmem with h | h
      · simp at h
      · rcases dtrace_mem true env.upload _ h with h1 | h1 <;> simp at h1

/-- Witness for C10 amended: a marker reading LIVE (no detik word, no
colon) yields a 0-duration item that goes through the transform step. -/
theorem C10_witness :
    ∃ d, get_video_details "https://20.detik.com/detikupdate/video-10b"
        scrape_env10b = some d ∧ d.duration = 0 ∧
      CallTag.convert ∈ (process_link env_c10b
        "https://20.detik.com/detikupdate/video-10b"
        { ledger := [], files := [] }).2 ∧
      CallTag.upload false ∉ (process_link env_c10b
        "https://20.detik.com/detikupdate/video-10b"
        { ledger := [], files := [] }).2 :=
  C10_missing_marker_short_form env_c10b
    "https://20.detik.com/detikupdate/video-10b" { ledger := [], files := [] }
    "vid10b.mp4" "https://cdn.detik.com/v10b.mp4" rfl
    (Or.inr ⟨"LIVE", rfl, by decide, by decide⟩) rfl rfl

end Detik
